import Mathlib

/-!
Shallow embedding of the request-validation core of mier85/go-alexa
(file skillserver/skillserver.go): the certificate URL validator
`verifyCertURL`, the certificate fetcher `readCert`, the orchestrator
`IsValidAlexaRequest`, the JSON / freshness middleware `verifyJSON`,
and the dev-mode gate `validateRequest`.

External collaborators (net/url parsing, encoding/pem, crypto/x509,
crypto/sha1, crypto/rsa, encoding/base64, the outbound HTTP client)
are modelled at their boundary: their results appear as inputs of the
embedded functions, carried in the environment records `AlexaEnv`,
`FetchEnv` and `JSONEnv`.  Bytes are modelled as `List Nat`.
-/

/-- A parsed URL exactly as Go's `net/url` exposes it to the code under
study: `Scheme`, `Host` (which includes a port when present) and
`Path`. -/
structure URL where
  scheme : String
  host : String
  path : String
deriving DecidableEq

/-- Go's `strings.HasPrefix s p` (true when `p` is a leading substring
of `s`), modelled on the character lists so that it evaluates inside
the kernel. -/
def strStartsWith (s p : String) : Bool :=
  p.data.isPrefixOf s.data

/-- skillserver.go lines 443-459, `verifyCertURL`.  The Go code runs
`link, _ := url.Parse(path)` and discards the error: when `url.Parse`
fails (for example on the string ":" — "missing protocol scheme" — or
on a string containing an ASCII control byte) `link` is nil and the
field accesses that follow dereference a nil pointer and panic.  The
argument here is therefore the result of `url.Parse` (`none` models a
parse error whose error value the code dropped), and a result of
`none` models that nil-dereference panic.  For a successfully parsed
URL the three checks mirror lines 446-458 of the source. -/
def verifyCertURL (parsed : Option URL) : Option Bool :=
  match parsed with
  | none => none
  | some link =>
    if link.scheme ≠ "https" then some false
    else if link.host ≠ "s3.amazonaws.com" ∧ link.host ≠ "s3.amazonaws.com:443" then some false
    else if strStartsWith link.path "/echo.api/" = false then some false
    else some true

/-- Boundary of the outbound HTTP fetch performed by `readCert`
(skillserver.go lines 429-441): the result of `r.client.Get` (only its
error matters to the control flow; the response body is read
separately) and the result of `ioutil.ReadAll` on the response
body. -/
structure FetchEnv where
  getResult : Except String Unit
  readAllResult : Except String (List Nat)

/-- skillserver.go lines 429-441, `readCert`: a `client.Get` error is
wrapped as "could not download Amazon cert file: ...", a `ReadAll`
error as "could not read Amazon cert file: ...", and otherwise the raw
certificate bytes are returned. -/
def readCert (fe : FetchEnv) : Except String (List Nat) :=
  match fe.getResult with
  | Except.error e => Except.error ("could not download Amazon cert file: " ++ e)
  | Except.ok _ =>
    match fe.readAllResult with
    | Except.error e => Except.error ("could not read Amazon cert file: " ++ e)
    | Except.ok bs => Except.ok bs

/-- The public key carried by a parsed certificate.  The Go code only
distinguishes "is an `*rsa.PublicKey`" (the unchecked type assertion
at line 420) from anything else, so the RSA case carries an opaque
handle that the `rsaVerify` oracle of the environment interprets. -/
inductive PublicKey where
  | rsa (key : Nat)
  | other
deriving DecidableEq

/-- A parsed X.509 certificate as the validator consumes it:
`NotBefore`/`NotAfter` as Unix seconds, the values of the subject
distinguished-name attributes (`cert.Subject.Names[i].Value`, which is
what lines 393-398 iterate), the DNS subject alternative names
(`cert.DNSNames`, which the code never reads), and the public key. -/
structure Certificate where
  notBefore : Int
  notAfter : Int
  subjectNames : List String
  dnsNames : List String
  publicKey : PublicKey

/-- The certificate-date guard of skillserver.go line 387:
`time.Now().Unix() < cert.NotBefore.Unix() || time.Now().Unix() >
cert.NotAfter.Unix()` (true means the request is rejected as
"Amazon certificate expired."). -/
def certDateRejected (now notBefore notAfter : Int) : Bool :=
  decide (now < notBefore) || decide (now > notAfter)

/-- Lines 410-418: `io.Copy(hash, io.TeeReader(request.Body,
&bodyBuf))`.  The body stream is a sequence of chunks as the reads
deliver them; every chunk read is fed to the SHA-1 hash and also
written to `bodyBuf`.  The first component is the byte sequence the
hash consumed, the second the contents of `bodyBuf` (which line 418
reinstates as `request.Body`). -/
def teeCopy : List (List Nat) → List Nat × List Nat
  | [] => ([], [])
  | c :: cs =>
    let r := teeCopy cs
    (c ++ r.1, c ++ r.2)

/-- The observable stages of the validation pipeline, used to record
which parts of `IsValidAlexaRequest` a run actually executed. -/
inductive Stage where
  | urlCheck
  | fetchCert
  | pemParse
  | x509Parse
  | dateCheck
  | nameCheck
  | digestBody
  | sigVerify
deriving DecidableEq

/-- The result of a validation run: `accept` (the function returns
true), `reject status logMsg clientMsg` (an `HTTPError` with the
logged reason, the generic client message and the HTTP status code was
written and the function returns false), or `panic` (a Go runtime
panic: nil-pointer dereference or failed type assertion). -/
inductive Outcome where
  | accept
  | reject (status : Nat) (logMsg : String) (clientMsg : String)
  | panic
deriving DecidableEq

/-- A run of `IsValidAlexaRequest`: its outcome, the stages it
executed, the bytes a downstream consumer subsequently reads from
`request.Body`, and the bytes the SHA-1 digest consumed (when the
digest ran to completion). -/
structure VResult where
  outcome : Outcome
  trace : List Stage
  bodyAfter : List Nat
  digested : Option (List Nat)

/-- Everything an `IsValidAlexaRequest` run consumes, with every
external collaborator at its boundary:
* `insecureSkipVerify` — the validator flag checked at line 355;
* `certChainURLHeader` — the raw `SignatureCertChainUrl` header;
* `parsedCertURL` — the result of `url.Parse` on that header
  (`none` = parse error, whose error value the code discards);
* `fetch` — the outbound HTTP fetch boundary for `readCert`;
* `pemDecode` — `pem.Decode` restricted to the block bytes
  (`none` = no PEM block found; the code ignores the rest);
* `parseCertificate` — `x509.ParseCertificate`;
* `now` — `time.Now().Unix()`;
* `signatureHeader` — the raw `Signature` header;
* `b64Decode` — `base64.StdEncoding.DecodeString`: the bytes decoded
  so far and a success flag (line 407 discards the error, keeping the
  partial bytes);
* `body` — the request body as the chunk sequence `io.Copy` reads;
* `bodyReadError` — a mid-stream read error surfaced by `io.Copy`;
* `sha1` — the SHA-1 digest function;
* `rsaVerify` — `rsa.VerifyPKCS1v15` as an oracle taking the RSA key
  handle, the digest and the signature bytes. -/
structure AlexaEnv where
  insecureSkipVerify : Bool
  certChainURLHeader : String
  parsedCertURL : Option URL
  fetch : FetchEnv
  pemDecode : List Nat → Option (List Nat)
  parseCertificate : List Nat → Except String Certificate
  now : Int
  signatureHeader : String
  b64Decode : String → List Nat × Bool
  body : List (List Nat)
  bodyReadError : Option String
  sha1 : List Nat → List Nat
  rsaVerify : Nat → List Nat → List Nat → Bool

/-- skillserver.go lines 354-427, `IsValidAlexaRequest`, stage by
stage in source order: the `insecureSkipVerify` escape (355), the
certificate-URL check (361), the certificate fetch (367), the PEM
decode (374), the X.509 parse (380), the date check (387), the
subject-name scan (393-403), the base64 decode of the `Signature`
header with its error discarded (407), the SHA-1 digest of the body
through a tee into `bodyBuf` (410-418, with a read error producing the
500 at line 414 before the body is reinstated), and the RSA
verification whose unchecked type assertion
`publicKey.(*rsa.PublicKey)` panics on a non-RSA key (420). -/
def IsValidAlexaRequest (env : AlexaEnv) : VResult :=
  if env.insecureSkipVerify then
    ⟨Outcome.accept, [], env.body.flatten, none⟩
  else
    match verifyCertURL env.parsedCertURL with
    | none =>
      ⟨Outcome.panic, [Stage.urlCheck], env.body.flatten, none⟩
    | some false =>
      ⟨Outcome.reject 401 ("Invalid cert URL: " ++ env.certChainURLHeader) "Not Authorized",
        [Stage.urlCheck], env.body.flatten, none⟩
    | some true =>
      match readCert env.fetch with
      | Except.error e =>
        ⟨Outcome.reject 401 e "Not Authorized",
          [Stage.urlCheck, Stage.fetchCert], env.body.flatten, none⟩
      | Except.ok certContents =>
        match env.pemDecode certContents with
        | none =>
          ⟨Outcome.reject 401 "Failed to parse certificate PEM." "Not Authorized",
            [Stage.urlCheck, Stage.fetchCert, Stage.pemParse], env.body.flatten, none⟩
        | some blockBytes =>
          match env.parseCertificate blockBytes with
          | Except.error e =>
            ⟨Outcome.reject 401 e "Not Authorized",
              [Stage.urlCheck, Stage.fetchCert, Stage.pemParse, Stage.x509Parse],
              env.body.flatten, none⟩
          | Except.ok cert =>
            if certDateRejected env.now cert.notBefore cert.notAfter then
              ⟨Outcome.reject 401 "Amazon certificate expired." "Not Authorized",
                [Stage.urlCheck, Stage.fetchCert, Stage.pemParse, Stage.x509Parse,
                  Stage.dateCheck], env.body.flatten, none⟩
            else if (cert.subjectNames.any fun an => an == "echo-api.amazon.com") = false then
              ⟨Outcome.reject 401 "Amazon certificate invalid." "Not Authorized",
                [Stage.urlCheck, Stage.fetchCert, Stage.pemParse, Stage.x509Parse,
                  Stage.dateCheck, Stage.nameCheck], env.body.flatten, none⟩
            else
              let encryptedSig := (env.b64Decode env.signatureHeader).1
              match env.bodyReadError with
              | some e =>
                ⟨Outcome.reject 500 e "Internal Error",
                  [Stage.urlCheck, Stage.fetchCert, Stage.pemParse, Stage.x509Parse,
                    Stage.dateCheck, Stage.nameCheck, Stage.digestBody], [], none⟩
              | none =>
                let tee := teeCopy env.body
                let hashSum := env.sha1 tee.1
                match cert.publicKey with
                | PublicKey.other =>
                  ⟨Outcome.panic,
                    [Stage.urlCheck, Stage.fetchCert, Stage.pemParse, Stage.x509Parse,
                      Stage.dateCheck, Stage.nameCheck, Stage.digestBody],
                    tee.2, some tee.1⟩
                | PublicKey.rsa k =>
                  if env.rsaVerify k hashSum encryptedSig then
                    ⟨Outcome.accept,
                      [Stage.urlCheck, Stage.fetchCert, Stage.pemParse, Stage.x509Parse,
                        Stage.dateCheck, Stage.nameCheck, Stage.digestBody, Stage.sigVerify],
                      tee.2, some tee.1⟩
                  else
                    ⟨Outcome.reject 401 "Signature match failed." "Not Authorized",
                      [Stage.urlCheck, Stage.fetchCert, Stage.pemParse, Stage.x509Parse,
                        Stage.dateCheck, Stage.nameCheck, Stage.digestBody, Stage.sigVerify],
                      tee.2, some tee.1⟩

/-- skillserver.go lines 339-347, `validateRequest`: `devFlag :=
req.URL.Query().Get("_dev"); isDev := devFlag != ""`.  When `isDev`
holds, the Go `&&` short-circuits and `IsValidAlexaRequest` is never
evaluated; `next` runs directly.  The first component records whether
`next` was called (`none` = the validator panicked), the second the
validation stages that executed. -/
def validateRequest (dev : String) (env : AlexaEnv) : Option Bool × List Stage :=
  if dev = "" then
    match (IsValidAlexaRequest env).outcome with
    | Outcome.accept => (some true, (IsValidAlexaRequest env).trace)
    | Outcome.reject _ _ _ => (some false, (IsValidAlexaRequest env).trace)
    | Outcome.panic => (none, (IsValidAlexaRequest env).trace)
  else
    (some true, [])

/-- Modelled from the spec: `EchoRequest.VerifyTimestamp` is declared
outside the sources provided (only its caller `verifyJSON` is under
src/).  Spec section 4.5: "given a claimed timestamp, reject if
`|now − claimed| > freshness-window` (default 150 seconds)".  Returns
true when the request is fresh. -/
def VerifyTimestamp (now claimed : Int) : Bool :=
  decide ((now - claimed).natAbs ≤ 150)

/-- Boundary of the middleware `verifyJSON` (skillserver.go lines
257-280): the result of decoding the JSON body into an `EchoRequest`,
the current and claimed Unix timestamps feeding `VerifyTimestamp`, the
`_dev` query parameter, and the result of the `VerifyAppID` check
(whose callee is also outside the provided sources). -/
structure JSONEnv where
  decodeResult : Except String Unit
  now : Int
  claimedTimestamp : Int
  dev : String
  appIDMatch : Bool

/-- The outcome of `verifyJSON`: either the request is handed to the
next handler, or an `HTTPError` with the given status, logged reason
and client message is written. -/
inductive JSONOutcome where
  | pass
  | reject (status : Nat) (logMsg : String) (clientMsg : String)
deriving DecidableEq

/-- skillserver.go lines 257-280, `verifyJSON`: a JSON decode error is
a 400 "Bad Request" logging the decoder's error; then
`!echoReq.VerifyTimestamp() && r.URL.Query().Get("_dev") == ""` is a
400 logging "Request too old to continue (>150s)."; then a failed
`VerifyAppID` is a 400 logging "Echo AppID mismatch!"; otherwise the
request is passed on. -/
def verifyJSON (env : JSONEnv) : JSONOutcome :=
  match env.decodeResult with
  | Except.error e => JSONOutcome.reject 400 e "Bad Request"
  | Except.ok _ =>
    if (!VerifyTimestamp env.now env.claimedTimestamp) && env.dev == "" then
      JSONOutcome.reject 400 "Request too old to continue (>150s)." "Bad Request"
    else if !env.appIDMatch then
      JSONOutcome.reject 400 "Echo AppID mismatch!" "Bad Request"
    else
      JSONOutcome.pass

/-- A certificate-URL that passes all three checks of `verifyCertURL`. -/
def urlOK : URL :=
  ⟨"https", "s3.amazonaws.com", "/echo.api/echo-api-cert.pem"⟩

/-- A certificate whose subject distinguished-name attributes contain
the required name while its subject-alternative-name list is empty. -/
def certOK : Certificate :=
  ⟨10, 20, ["echo-api.amazon.com"], [], PublicKey.rsa 7⟩

/-- A fetch boundary that succeeds and delivers the bytes `[1, 2, 3]`. -/
def fetchOK : FetchEnv :=
  ⟨Except.ok (), Except.ok [1, 2, 3]⟩

/-- A fully successful environment: every external collaborator
cooperates and the RSA oracle accepts. -/
def envOK : AlexaEnv where
  insecureSkipVerify := false
  certChainURLHeader := "https://s3.amazonaws.com/echo.api/echo-api-cert.pem"
  parsedCertURL := some urlOK
  fetch := fetchOK
  pemDecode := fun bs => some bs
  parseCertificate := fun _ => Except.ok certOK
  now := 15
  signatureHeader := "c2ln"
  b64Decode := fun _ => ([9, 9], true)
  body := [[1, 2], [3]]
  bodyReadError := none
  sha1 := fun bs => bs
  rsaVerify := fun _ _ _ => true

/-- Variant of `envOK` with a certificate whose public key is not an RSA key. -/
def envNonRSA : AlexaEnv :=
  { envOK with parseCertificate := fun _ =>
      Except.ok { certOK with publicKey := PublicKey.other } }

/-- Variant of `envOK` with a failing certificate download. -/
def envFetchErr : AlexaEnv :=
  { envOK with fetch := ⟨Except.error "timeout", Except.ok []⟩ }

/-- Variant of `envOK` with a certificate URL that parsed to an insecure scheme. -/
def envBadURL : AlexaEnv :=
  { envOK with
      certChainURLHeader := "http://s3.amazonaws.com/echo.api/echo-api-cert.pem"
      parsedCertURL := some ⟨"http", "s3.amazonaws.com", "/echo.api/echo-api-cert.pem"⟩ }

/-- Variant of `envOK` with no PEM block in the fetched bytes. -/
def envNoPEM : AlexaEnv :=
  { envOK with pemDecode := fun _ => none }

/-- Variant of `envOK` with an X.509 parse failure. -/
def envBadX509 : AlexaEnv :=
  { envOK with parseCertificate := fun _ => Except.error "asn1 structure error" }

/-- Variant of `envOK` observed after the certificate's NotAfter instant. -/
def envExpired : AlexaEnv :=
  { envOK with now := 99 }

/-- A certificate that carries neither the required subject attribute
nor the required alternative name. -/
def certWrongName : Certificate :=
  { certOK with subjectNames := ["someone-else.example.com"] }

/-- Variant of `envOK` with a certificate that carries neither the required
subject attribute nor the required alternative name. -/
def envWrongName : AlexaEnv :=
  { envOK with parseCertificate := fun _ => Except.ok certWrongName }

/-- Variant of `envOK` with an RSA oracle that refuses the signature. -/
def envBadSig : AlexaEnv :=
  { envOK with rsaVerify := fun _ _ _ => false }

/-- Variant of `envOK` with a `Signature` header whose base64 decode fails after
yielding the bytes `[9, 9]` (Go's `DecodeString` returns the bytes
decoded so far together with the error; line 407 keeps the bytes and
discards the error). -/
def envBadB64 : AlexaEnv :=
  { envOK with b64Decode := fun _ => ([9, 9], false) }

/-- A `verifyJSON` boundary whose JSON decode fails. -/
def jsonEnvDecodeErr : JSONEnv :=
  ⟨Except.error "unexpected end of JSON input", 1000, 900, "", true⟩

/-- A `verifyJSON` boundary with a timestamp 1000 seconds in the past. -/
def jsonEnvStale : JSONEnv :=
  ⟨Except.ok (), 1000, 0, "", true⟩

/-- A `verifyJSON` boundary with a timestamp 1000 seconds in the future. -/
def jsonEnvFuture : JSONEnv :=
  ⟨Except.ok (), 0, 1000, "", true⟩

/-- A `verifyJSON` boundary with a timestamp 100 seconds in the past. -/
def jsonEnvFresh : JSONEnv :=
  ⟨Except.ok (), 1000, 900, "", true⟩

/-- Join of the chunked tee copy: the digest input and the replay
buffer are both exactly the flattened body. -/
theorem teeCopy_eq (cs : List (List Nat)) : teeCopy cs = (cs.flatten, cs.flatten) := by
  induction cs with
  | nil => rfl
  | cons c cs ih => simp [teeCopy, ih]

/-- Every branch of `IsValidAlexaRequest` either never completed the
digest, or digested exactly the flattened body and reinstated exactly
those bytes as the downstream-visible body. -/
theorem isValid_digest_cases (env : AlexaEnv) :
    (IsValidAlexaRequest env).digested = none ∨
      ((IsValidAlexaRequest env).digested = some env.body.flatten ∧
        (IsValidAlexaRequest env).bodyAfter = env.body.flatten) := by
  unfold IsValidAlexaRequest
  repeat' split
  all_goals first
  | exact Or.inl rfl
  | exact Or.inr (by constructor <;> simp [teeCopy_eq] <;> split <;> rfl)

/-- Any error `readCert` reports is one of its two transport-failure
wrappings of the underlying cause. -/
theorem readCert_error_shape (fe : FetchEnv) (e : String)
    (h : readCert fe = Except.error e) :
    ∃ c, e = "could not download Amazon cert file: " ++ c ∨
      e = "could not read Amazon cert file: " ++ c := by
  unfold readCert at h
  cases hg : fe.getResult with
  | error g =>
    rw [hg] at h
    injection h with h2
    exact ⟨g, Or.inl h2.symm⟩
  | ok u =>
    rw [hg] at h
    cases hr : fe.readAllResult with
    | error g =>
      rw [hr] at h
      injection h with h2
      exact ⟨g, Or.inr h2.symm⟩
    | ok bs =>
      rw [hr] at h
      cases h

/-- Claim C1 (code bug).  An otherwise fully valid request whose
certificate carries the required name only among its subject
distinguished-name attributes — its subject-alternative-name list is
empty, so "echo-api.amazon.com" does not appear among the SANs — is
accepted by `IsValidAlexaRequest`: the code scans `cert.Subject.Names`
and never reads `cert.DNSNames`, while its own comment (line 392) and
the spec call for the subject alternative names. -/
theorem isValid_accepts_without_alt_name :
    (IsValidAlexaRequest envOK).outcome = Outcome.accept ∧
    envOK.parseCertificate [1, 2, 3] = Except.ok certOK ∧
    certOK.dnsNames = [] ∧
    certOK.dnsNames.contains "echo-api.amazon.com" = false :=
  ⟨rfl, rfl, rfl, rfl⟩

/-- Claim C2.  For every URL that `url.Parse` produced, `verifyCertURL`
accepts exactly when the scheme is "https", the host is
"s3.amazonaws.com" or "s3.amazonaws.com:443", and the path starts with
"/echo.api/". -/
theorem verifyCertURL_iff (link : URL) :
    verifyCertURL (some link) = some true ↔
      (link.scheme = "https" ∧
        (link.host = "s3.amazonaws.com" ∨ link.host = "s3.amazonaws.com:443") ∧
        strStartsWith link.path "/echo.api/" = true) := by
  simp only [verifyCertURL]
  split_ifs with h1 h2 h3 <;> simp_all <;> tauto

/-- Witness for C2: the canonical Amazon certificate URL satisfies the
three conditions and is accepted. -/
theorem verifyCertURL_iff_witness :
    verifyCertURL (some urlOK) = some true :=
  (verifyCertURL_iff urlOK).mpr (by refine ⟨rfl, Or.inl rfl, ?_⟩; decide)

/-- Claim C3 (code bug).  The signature stage neither rejects every
non-RSA key nor every base64 failure: a certificate with a non-RSA
public key makes the unchecked type assertion
`publicKey.(*rsa.PublicKey)` panic instead of rejecting, and a
`Signature` header whose base64 decode fails (line 407 discards the
error and keeps the partially decoded bytes) can still be accepted
when those bytes verify. -/
theorem isValid_non_rsa_key_panics :
    (IsValidAlexaRequest envNonRSA).outcome = Outcome.panic ∧
    (IsValidAlexaRequest envBadB64).outcome = Outcome.accept ∧
    (envBadB64.b64Decode envBadB64.signatureHeader).2 = false :=
  ⟨rfl, rfl, rfl⟩

/-- Claim C4 (code bug).  `verifyCertURL` is not total: when
`url.Parse` fails (for example on the input ":"), the code dropped the
error and dereferences a nil `*url.URL`, which panics instead of
returning a boolean. -/
theorem verifyCertURL_panics_on_unparsable_url :
    verifyCertURL none = none :=
  rfl

/-- Claim C5.  When the certificate fetch fails, `IsValidAlexaRequest`
rejects with 401 and the transport-failure reason `readCert` wrapped,
and neither the SHA-1 digest of the body nor the RSA verification is
ever attempted. -/
theorem isValid_fetch_failure_terminal (env : AlexaEnv) (e : String)
    (h1 : env.insecureSkipVerify = false)
    (h2 : verifyCertURL env.parsedCertURL = some true)
    (h3 : readCert env.fetch = Except.error e) :
    (IsValidAlexaRequest env).outcome = Outcome.reject 401 e "Not Authorized" ∧
    (IsValidAlexaRequest env).trace = [Stage.urlCheck, Stage.fetchCert] ∧
    Stage.digestBody ∉ (IsValidAlexaRequest env).trace ∧
    Stage.sigVerify ∉ (IsValidAlexaRequest env).trace ∧
    ∃ c, e = "could not download Amazon cert file: " ++ c ∨
      e = "could not read Amazon cert file: " ++ c := by
  have hrun : IsValidAlexaRequest env =
      ⟨Outcome.reject 401 e "Not Authorized", [Stage.urlCheck, Stage.fetchCert],
        env.body.flatten, none⟩ := by
    simp [IsValidAlexaRequest, h1, h2, h3]
  refine ⟨by rw [hrun], by rw [hrun], ?_, ?_, readCert_error_shape env.fetch e h3⟩
  · rw [hrun]; simp
  · rw [hrun]; simp

/-- Witness for C5: a concrete failing download is rejected with the
wrapped transport reason and no digest or signature stage in the
trace. -/
theorem isValid_fetch_failure_terminal_witness :
    (IsValidAlexaRequest envFetchErr).outcome =
      Outcome.reject 401 ("could not download Amazon cert file: " ++ "timeout")
        "Not Authorized" ∧
    (IsValidAlexaRequest envFetchErr).trace = [Stage.urlCheck, Stage.fetchCert] ∧
    Stage.digestBody ∉ (IsValidAlexaRequest envFetchErr).trace ∧
    Stage.sigVerify ∉ (IsValidAlexaRequest envFetchErr).trace ∧
    ∃ c, "could not download Amazon cert file: " ++ "timeout" =
        "could not download Amazon cert file: " ++ c ∨
      "could not download Amazon cert file: " ++ "timeout" =
        "could not read Amazon cert file: " ++ c :=
  isValid_fetch_failure_terminal envFetchErr
    ("could not download Amazon cert file: " ++ "timeout") rfl rfl rfl

/-- Claim C6.  The certificate date guard of line 387 passes exactly
when the current time lies in the inclusive interval from NotBefore to
NotAfter; both endpoints pass, and strictly outside either bound is a
rejection. -/
theorem certDateRejected_iff (now notBefore notAfter : Int) :
    certDateRejected now notBefore notAfter = false ↔
      (notBefore ≤ now ∧ now ≤ notAfter) := by
  simp [certDateRejected, not_lt]

/-- Witness for C6: both endpoints of the validity window pass the
date check. -/
theorem certDateRejected_iff_witness :
    certDateRejected 10 10 20 = false ∧ certDateRejected 20 10 20 = false :=
  ⟨(certDateRejected_iff 10 10 20).mpr (by decide),
    (certDateRejected_iff 20 10 20).mpr (by decide)⟩

/-- Claim C7 (the freshness checker itself is modelled from the spec,
see `VerifyTimestamp`).  With a decodable payload, a claimed timestamp
whose absolute distance from now exceeds 150 seconds is rejected by
`verifyJSON` when the `_dev` escape is empty — the bound is on the
absolute difference, so past and future excursions alike — and a
timestamp within the window is never rejected as stale. -/
theorem verifyJSON_freshness_window (env : JSONEnv)
    (h : env.decodeResult = Except.ok ()) :
    ((150 < (env.now - env.claimedTimestamp).natAbs ∧ env.dev = "") →
      verifyJSON env =
        JSONOutcome.reject 400 "Request too old to continue (>150s)." "Bad Request") ∧
    ((env.now - env.claimedTimestamp).natAbs ≤ 150 →
      verifyJSON env ≠
        JSONOutcome.reject 400 "Request too old to continue (>150s)." "Bad Request") := by
  constructor
  · rintro ⟨hstale, hdev⟩
    have hts : VerifyTimestamp env.now env.claimedTimestamp = false := by
      simp only [VerifyTimestamp, decide_eq_false_iff_not]
      exact Nat.not_le.mpr hstale
    simp [verifyJSON, h, hts, hdev]
  · intro hfresh
    have hts : VerifyTimestamp env.now env.claimedTimestamp = true := by
      simp only [VerifyTimestamp, decide_eq_true_eq]
      exact hfresh
    simp only [verifyJSON, h, hts, Bool.not_true, Bool.false_and, Bool.false_eq_true,
      if_false]
    cases hA : env.appIDMatch <;> simp

/-- Witness for C7: a timestamp 1000 seconds in the past and one 1000
seconds in the future are both rejected as stale; one 100 seconds in
the past is not. -/
theorem verifyJSON_freshness_window_witness :
    verifyJSON jsonEnvStale =
      JSONOutcome.reject 400 "Request too old to continue (>150s)." "Bad Request" ∧
    verifyJSON jsonEnvFuture =
      JSONOutcome.reject 400 "Request too old to continue (>150s)." "Bad Request" ∧
    verifyJSON jsonEnvFresh ≠
      JSONOutcome.reject 400 "Request too old to continue (>150s)." "Bad Request" :=
  ⟨(verifyJSON_freshness_window jsonEnvStale rfl).1 ⟨by decide, rfl⟩,
    (verifyJSON_freshness_window jsonEnvFuture rfl).1 ⟨by decide, rfl⟩,
    (verifyJSON_freshness_window jsonEnvFresh rfl).2 (by decide)⟩

/-- Claim C8.  Whenever `IsValidAlexaRequest` completed the digest of
the body, the bytes a downstream consumer subsequently reads from
`request.Body` are exactly the original body bytes, and they are
exactly the bytes the SHA-1 digest consumed: the tee buffers every
chunk read and line 418 reinstates the buffer as the body. -/
theorem isValid_body_replay (env : AlexaEnv) (d : List Nat)
    (h : (IsValidAlexaRequest env).digested = some d) :
    (IsValidAlexaRequest env).bodyAfter = env.body.flatten ∧
      d = env.body.flatten := by
  rcases isValid_digest_cases env with hn | ⟨hd, hb⟩
  · rw [hn] at h
    cases h
  · rw [hd] at h
    injection h with h2
    exact ⟨hb, h2.symm⟩

/-- Witness for C8: the fully successful run digested `[1, 2, 3]` and
leaves exactly those bytes readable downstream. -/
theorem isValid_body_replay_witness :
    (IsValidAlexaRequest envOK).bodyAfter = envOK.body.flatten ∧
      [1, 2, 3] = envOK.body.flatten :=
  isValid_body_replay envOK [1, 2, 3] rfl

/-- Claim C10.  A non-empty `_dev` query parameter makes
`validateRequest` forward the request to the next handler with no part
of the validation pipeline executed: the Go `&&` short-circuits, so
`IsValidAlexaRequest` — certificate-URL check, fetch, parsing,
signature verification and all — never runs. -/
theorem validateRequest_dev_bypass (dev : String) (env : AlexaEnv)
    (h : dev ≠ "") :
    validateRequest dev env = (some true, []) := by
  simp [validateRequest, h]

/-- Witness for C10: `_dev=1` forwards with an empty stage trace even
in an environment where every validation stage would fail. -/
theorem validateRequest_dev_bypass_witness :
    validateRequest "1" envFetchErr = (some true, []) :=
  validateRequest_dev_bypass "1" envFetchErr (by decide)

/-- Claim C9.  Exact status mapping of every rejection the claim
enumerates: an invalid certificate URL, a certificate fetch failure, a
PEM decode failure, an X.509 parse failure, an expired certificate, a
subject-name mismatch and a signature-verification failure each write
401 with the listed logged reason; a JSON decode failure and a stale
timestamp each write 400 with the listed logged reason. -/
theorem rejection_status_mapping :
    (∀ env : AlexaEnv, env.insecureSkipVerify = false →
      verifyCertURL env.parsedCertURL = some false →
      (IsValidAlexaRequest env).outcome =
        Outcome.reject 401 ("Invalid cert URL: " ++ env.certChainURLHeader)
          "Not Authorized") ∧
    (∀ (env : AlexaEnv) (e : String), env.insecureSkipVerify = false →
      verifyCertURL env.parsedCertURL = some true →
      readCert env.fetch = Except.error e →
      (IsValidAlexaRequest env).outcome =
        Outcome.reject 401 e "Not Authorized") ∧
    (∀ (env : AlexaEnv) (bs : List Nat), env.insecureSkipVerify = false →
      verifyCertURL env.parsedCertURL = some true →
      readCert env.fetch = Except.ok bs →
      env.pemDecode bs = none →
      (IsValidAlexaRequest env).outcome =
        Outcome.reject 401 "Failed to parse certificate PEM." "Not Authorized") ∧
    (∀ (env : AlexaEnv) (bs blk : List Nat) (e : String),
      env.insecureSkipVerify = false →
      verifyCertURL env.parsedCertURL = some true →
      readCert env.fetch = Except.ok bs →
      env.pemDecode bs = some blk →
      env.parseCertificate blk = Except.error e →
      (IsValidAlexaRequest env).outcome =
        Outcome.reject 401 e "Not Authorized") ∧
    (∀ (env : AlexaEnv) (bs blk : List Nat) (cert : Certificate),
      env.insecureSkipVerify = false →
      verifyCertURL env.parsedCertURL = some true →
      readCert env.fetch = Except.ok bs →
      env.pemDecode bs = some blk →
      env.parseCertificate blk = Except.ok cert →
      certDateRejected env.now cert.notBefore cert.notAfter = true →
      (IsValidAlexaRequest env).outcome =
        Outcome.reject 401 "Amazon certificate expired." "Not Authorized") ∧
    (∀ (env : AlexaEnv) (bs blk : List Nat) (cert : Certificate),
      env.insecureSkipVerify = false →
      verifyCertURL env.parsedCertURL = some true →
      readCert env.fetch = Except.ok bs →
      env.pemDecode bs = some blk →
      env.parseCertificate blk = Except.ok cert →
      certDateRejected env.now cert.notBefore cert.notAfter = false →
      (cert.subjectNames.any fun an => an == "echo-api.amazon.com") = false →
      (IsValidAlexaRequest env).outcome =
        Outcome.reject 401 "Amazon certificate invalid." "Not Authorized") ∧
    (∀ (env : AlexaEnv) (bs blk : List Nat) (cert : Certificate) (k : Nat),
      env.insecureSkipVerify = false →
      verifyCertURL env.parsedCertURL = some true →
      readCert env.fetch = Except.ok bs →
      env.pemDecode bs = some blk →
      env.parseCertificate blk = Except.ok cert →
      certDateRejected env.now cert.notBefore cert.notAfter = false →
      (cert.subjectNames.any fun an => an == "echo-api.amazon.com") = true →
      env.bodyReadError = none →
      cert.publicKey = PublicKey.rsa k →
      env.rsaVerify k (env.sha1 (teeCopy env.body).1)
        (env.b64Decode env.signatureHeader).1 = false →
      (IsValidAlexaRequest env).outcome =
        Outcome.reject 401 "Signature match failed." "Not Authorized") ∧
    (∀ (env : JSONEnv) (e : String), env.decodeResult = Except.error e →
      verifyJSON env = JSONOutcome.reject 400 e "Bad Request") ∧
    (∀ env : JSONEnv, env.decodeResult = Except.ok () →
      150 < (env.now - env.claimedTimestamp).natAbs →
      env.dev = "" →
      verifyJSON env =
        JSONOutcome.reject 400 "Request too old to continue (>150s)."
          "Bad Request") := by
  refine ⟨?_, ?_, ?_, ?_, ?_, ?_, ?_, ?_, ?_⟩
  · intro env h1 h2
    simp [IsValidAlexaRequest, h1, h2]
  · intro env e h1 h2 h3
    simp [IsValidAlexaRequest, h1, h2, h3]
  · intro env bs h1 h2 h3 h4
    simp [IsValidAlexaRequest, h1, h2, h3, h4]
  · intro env bs blk e h1 h2 h3 h4 h5
    simp [IsValidAlexaRequest, h1, h2, h3, h4, h5]
  · intro env bs blk cert h1 h2 h3 h4 h5 h6
    simp [IsValidAlexaRequest, h1, h2, h3, h4, h5, h6]
  · intro env bs blk cert h1 h2 h3 h4 h5 h6 h7
    simp [IsValidAlexaRequest, h1, h2, h3, h4, h5, h6, h7]
  · intro env bs blk cert k h1 h2 h3 h4 h5 h6 h7 h8 h9 h10
    simp [IsValidAlexaRequest, h1, h2, h3, h4, h5, h6, h7, h8, h9, h10]
  · intro env e h
    simp [verifyJSON, h]
  · intro env h hstale hdev
    have hts : VerifyTimestamp env.now env.claimedTimestamp = false := by
      simp only [VerifyTimestamp, decide_eq_false_iff_not]
      exact Nat.not_le.mpr hstale
    simp [verifyJSON, h, hts, hdev]

/-- Witness for C9: each enumerated rejection cause, at a concrete
environment, produces exactly the mapped status and reason. -/
theorem rejection_status_mapping_witness :
    (IsValidAlexaRequest envBadURL).outcome =
      Outcome.reject 401 ("Invalid cert URL: " ++ envBadURL.certChainURLHeader)
        "Not Authorized" ∧
    (IsValidAlexaRequest envFetchErr).outcome =
      Outcome.reject 401 ("could not download Amazon cert file: " ++ "timeout")
        "Not Authorized" ∧
    (IsValidAlexaRequest envNoPEM).outcome =
      Outcome.reject 401 "Failed to parse certificate PEM." "Not Authorized" ∧
    (IsValidAlexaRequest envBadX509).outcome =
      Outcome.reject 401 "asn1 structure error" "Not Authorized" ∧
    (IsValidAlexaRequest envExpired).outcome =
      Outcome.reject 401 "Amazon certificate expired." "Not Authorized" ∧
    (IsValidAlexaRequest envWrongName).outcome =
      Outcome.reject 401 "Amazon certificate invalid." "Not Authorized" ∧
    (IsValidAlexaRequest envBadSig).outcome =
      Outcome.reject 401 "Signature match failed." "Not Authorized" ∧
    verifyJSON jsonEnvDecodeErr =
      JSONOutcome.reject 400 "unexpected end of JSON input" "Bad Request" ∧
    verifyJSON jsonEnvStale =
      JSONOutcome.reject 400 "Request too old to continue (>150s)." "Bad Request" :=
  ⟨rejection_status_mapping.1 envBadURL rfl rfl,
    rejection_status_mapping.2.1 envFetchErr
      ("could not download Amazon cert file: " ++ "timeout") rfl rfl rfl,
    rejection_status_mapping.2.2.1 envNoPEM [1, 2, 3] rfl rfl rfl rfl,
    rejection_status_mapping.2.2.2.1 envBadX509 [1, 2, 3] [1, 2, 3]
      "asn1 structure error" rfl rfl rfl rfl rfl,
    rejection_status_mapping.2.2.2.2.1 envExpired [1, 2, 3] [1, 2, 3] certOK
      rfl rfl rfl rfl rfl rfl,
    rejection_status_mapping.2.2.2.2.2.1 envWrongName [1, 2, 3] [1, 2, 3]
      certWrongName rfl rfl rfl rfl rfl rfl rfl,
    rejection_status_mapping.2.2.2.2.2.2.1 envBadSig [1, 2, 3] [1, 2, 3] certOK 7
      rfl rfl rfl rfl rfl rfl rfl rfl rfl rfl,
    rejection_status_mapping.2.2.2.2.2.2.2.1 jsonEnvDecodeErr
      "unexpected end of JSON input" rfl,
    rejection_status_mapping.2.2.2.2.2.2.2.2 jsonEnvStale rfl (by decide) rfl⟩
